import Mathlib

/-!
# Physiclaw — shallow embedding and verification

Shallow embedding of the Physiclaw enforcement layer (persona-based tool
whitelisting, environment sanitization, sandbox dispatch, egress watchdog,
authorization gate) translated from the Python sources:
`src/python/cli.py`, `src/python/security/watchdog.py`,
`src/python/security/sandbox.py`, `src/python/bridge.py`.

Python strings are modelled as Lean `String`/`List Char`; all inputs in this
development are ASCII, for which Lean's `Char.toLower`/`Char.toUpper` agree
with Python's `str.lower`/`str.upper`.  Python dicts are modelled as
association lists with unique keys; external effects (subprocess execution,
filesystem probes, `shutil.which`) are passed in as explicit parameters.
-/

namespace Physiclaw

/-! ## Python string primitives -/

/-- The whitespace characters recognized by Python's `str.split()` /
`str.strip()` (ASCII fragment). -/
def pyIsSpace (c : Char) : Bool :=
  c == ' ' || c == '\t' || c == '\n' || c == '\r' || c == '\x0b' || c == '\x0c'

/-- Python `s.lower()` on a character list (ASCII model). -/
def pyLowerL (l : List Char) : List Char := l.map Char.toLower

/-- Python `s.lower()` (ASCII model). -/
def pyLower (s : String) : String := ⟨pyLowerL s.data⟩

/-- Python `s.upper()` on a character list (ASCII model). -/
def pyUpperL (l : List Char) : List Char := l.map Char.toUpper

/-- Python `s.strip()` (ASCII whitespace model). -/
def pyStripL (l : List Char) : List Char :=
  ((l.dropWhile pyIsSpace).reverse.dropWhile pyIsSpace).reverse

/-- Python `s.strip()` on `String`. -/
def pyStrip (s : String) : String := ⟨pyStripL s.data⟩

/-- `leadsWith pat l` : `pat` is a leading segment of `l`
(Python `l.startswith(pat)`). -/
def leadsWith : List Char → List Char → Bool
  | [], _ => true
  | _ :: _, [] => false
  | a :: as, b :: bs => a == b && leadsWith as bs

/-- `occursIn needle hay` : `needle` occurs contiguously inside `hay`
(Python `needle in hay` on strings). -/
def occursIn (needle : List Char) : List Char → Bool
  | [] => needle.isEmpty
  | b :: bs => leadsWith needle (b :: bs) || occursIn needle bs

/-- Split a character list at every occurrence of `c`, keeping empty
segments (Python `s.split(c)` for a one-character separator). -/
def splitOnChar (c : Char) : List Char → List (List Char)
  | [] => [[]]
  | x :: xs =>
    let r := splitOnChar c xs
    if x == c then [] :: r
    else
      match r with
      | [] => [[x]]
      | h :: t => (x :: h) :: t

/-- Python `s.split()` with no argument: split on runs of whitespace,
dropping empty fields. -/
def pyWords : List Char → List (List Char)
  | [] => []
  | c :: cs =>
    let r := pyWords cs
    if pyIsSpace c then r
    else
      match r, cs with
      | _, [] => [[c]]
      | _, d :: _ =>
        if pyIsSpace d then [c] :: r
        else
          match r with
          | [] => [[c]]
          | w :: ws => (c :: w) :: ws

/-! ## `cli.py` — authorization model -/

/-- `cli._norm`: `" ".join(tool.lower().split())` — lowercase, collapse
internal whitespace to single spaces. -/
def _norm (tool : String) : String :=
  ⟨List.intercalate [' '] (pyWords (pyLowerL tool.data))⟩

/-- `cli.SRE_WHITELIST` (a frozenset; order is irrelevant to membership). -/
def SRE_WHITELIST : List String :=
  ["kubectl-get", "kubectl get", "terraform-plan", "terraform plan",
   "log-aggregator", "prometheus-query"]

/-- `cli.SECOPS_WHITELIST`. -/
def SECOPS_WHITELIST : List String :=
  ["nmap", "bandit-scan", "bandit", "iam-inspect", "vault-read"]

/-- `cli.Persona` (the enum has exactly two members). -/
inductive Persona
  | sre
  | secops
deriving DecidableEq

/-- `Persona.value` — the string value of the enum member. -/
def personaValue : Persona → String
  | .sre => "sre"
  | .secops => "secops"

/-- `ToolExecutor.__init__`: `self._whitelist = SRE_WHITELIST if persona ==
Persona.SRE else SECOPS_WHITELIST`. -/
def whitelistOf : Persona → List String
  | .sre => SRE_WHITELIST
  | .secops => SECOPS_WHITELIST

/-- One disjunct of `ToolExecutor.allowed`:
`n == _norm(t) or n in _norm(t) or _norm(t) in n`. -/
def matchEntry (n : String) (t : String) : Bool :=
  n == _norm t || occursIn n.data (_norm t).data || occursIn (_norm t).data n.data

/-- `ToolExecutor.allowed`: any whitelist entry of the executor's own
persona matches the normalized query. -/
def allowed (p : Persona) (tool : String) : Bool :=
  (whitelistOf p).any (matchEntry (_norm tool))

/-! ## Library model of `ipaddress.ip_address`

Translation of CPython's `ipaddress` parsing (`IPv4Address` /
`IPv6Address` constructors) and network membership, used by
`security/watchdog.py`.  Parse failure (`ValueError`) is `none`. -/

/-- A parsed IP address: the version tag plus the address as an integer. -/
inductive IPAddr
  | v4 (n : Nat)
  | v6 (n : Nat)
deriving DecidableEq

/-- Hex digit test (`string.hexdigits`). -/
def isHexDigitCh (c : Char) : Bool :=
  c.isDigit || ('a' ≤ c && c ≤ 'f') || ('A' ≤ c && c ≤ 'F')

/-- Value of a hex digit. -/
def hexVal (c : Char) : Nat :=
  if c.isDigit then c.toNat - 48
  else if 'a' ≤ c && c ≤ 'f' then c.toNat - 87
  else c.toNat - 55

/-- CPython `IPv4Address._parse_octet`: decimal digits only, at most three
of them, no leading zero (unless the octet is exactly "0"), value ≤ 255. -/
def parseDecOctet (cs : List Char) : Option Nat :=
  if cs.isEmpty then none
  else if ¬ cs.all Char.isDigit then none
  else if cs.length > 3 then none
  else if cs.length > 1 && cs.headD '0' == '0' then none
  else
    let n := cs.foldl (fun a c => a * 10 + (c.toNat - 48)) 0
    if n > 255 then none else some n

/-- CPython `IPv4Address._ip_int_from_string`: exactly four octets. -/
def parseIPv4 (cs : List Char) : Option Nat :=
  match (splitOnChar '.' cs).mapM parseDecOctet with
  | some [a, b, c, d] => some (((a * 256 + b) * 256 + c) * 256 + d)
  | _ => none

/-- CPython `IPv6Address._parse_hextet`: hex digits only, at most four. -/
def parseHextet (cs : List Char) : Option Nat :=
  if cs.isEmpty then none
  else if ¬ cs.all isHexDigitCh then none
  else if cs.length > 4 then none
  else some (cs.foldl (fun a c => a * 16 + hexVal c) 0)

/-- Fold a list of 16-bit hextets into an integer (big-endian). -/
def foldHextets (init : Nat) (hs : List Nat) : Nat :=
  hs.foldl (fun a h => a * 65536 + h) init

/-- CPython `IPv6Address._ip_int_from_string`: split on `':'`, at least
three parts, optional embedded IPv4 in the last part, at most one `'::'`
compression, eight hextets once expanded. -/
def parseIPv6Core (cs : List Char) : Option Nat :=
  if cs.isEmpty then none
  else
    let parts0 := splitOnChar ':' cs
    if parts0.length < 3 then none
    else
      match parts0.reverse with
      | [] => none
      | lastP :: revInit =>
        let withV4 : Option (List (List Char)) :=
          if lastP.contains '.' then
            match parseIPv4 lastP with
            | none => none
            | some v4 =>
              some (revInit.reverse ++
                [Nat.toDigits 16 (v4 / 65536), Nat.toDigits 16 (v4 % 65536)])
          else some parts0
        match withV4 with
        | none => none
        | some parts =>
          if parts.length > 9 then none
          else
            let mid := (parts.drop 1).dropLast
            match (mid.enum.filter (fun q => q.2.isEmpty)).map (fun q => q.1 + 1) with
            | [] =>
              -- no '::' compression: exactly eight non-empty hextets
              if parts.length ≠ 8 then none
              else if (parts.headD ['x']).isEmpty then none
              else if (parts.getLastD ['x']).isEmpty then none
              else (parts.mapM parseHextet).map (foldHextets 0)
            | [skip] =>
              let hi0 := skip
              let lo0 := parts.length - skip - 1
              let p0Empty := (parts.headD ['x']).isEmpty
              let pLEmpty := (parts.getLastD ['x']).isEmpty
              let hi := if p0Empty then hi0 - 1 else hi0
              if p0Empty && hi ≠ 0 then none
              else
                let lo := if pLEmpty then lo0 - 1 else lo0
                if pLEmpty && lo ≠ 0 then none
                else if hi + lo ≥ 8 then none
                else
                  let skipped := 8 - (hi + lo)
                  match (parts.take hi).mapM parseHextet,
                        ((parts.reverse.take lo).reverse).mapM parseHextet with
                  | some hhi, some hlo =>
                    some (foldHextets (foldHextets 0 hhi * 65536 ^ skipped) hlo)
                  | _, _ => none
            | _ => none

/-- CPython `IPv6Address.__init__`: an optional non-empty scope id may
follow a `'%'`. -/
def parseIPv6 (cs : List Char) : Option Nat :=
  if cs.contains '%' then
    let addr := cs.takeWhile (· ≠ '%')
    let scope := (cs.dropWhile (· ≠ '%')).drop 1
    if scope.isEmpty then none else parseIPv6Core addr
  else parseIPv6Core cs

/-- CPython `ipaddress.ip_address`: try IPv4, then IPv6. -/
def ip_address (cs : List Char) : Option IPAddr :=
  match parseIPv4 cs with
  | some n => some (.v4 n)
  | none =>
    match parseIPv6 cs with
    | some n => some (.v6 n)
    | none => none

/-- A network prefix: version tag, base address, prefix length. -/
structure IPNet where
  isV4 : Bool
  base : Nat
  plen : Nat
deriving DecidableEq

/-- CPython `address in network`: `False` when the versions differ,
otherwise compare the top `plen` bits. -/
def inNet (ip : IPAddr) (net : IPNet) : Bool :=
  match ip with
  | .v4 n => net.isV4 && (n / 2 ^ (32 - net.plen) == net.base / 2 ^ (32 - net.plen))
  | .v6 n => !net.isV4 && (n / 2 ^ (128 - net.plen) == net.base / 2 ^ (128 - net.plen))

/-! ## `security/watchdog.py` — egress watchdog -/

/-- `watchdog.SAFE_SUBNETS`. -/
def SAFE_SUBNETS : List IPNet :=
  [⟨true, 127 * 2 ^ 24, 8⟩,                  -- 127.0.0.0/8 loopback
   ⟨false, 1, 128⟩,                          -- ::1/128 IPv6 loopback
   ⟨true, 10 * 2 ^ 24, 8⟩,                   -- 10.0.0.0/8 private
   ⟨true, 172 * 2 ^ 24 + 16 * 2 ^ 16, 12⟩,   -- 172.16.0.0/12 private
   ⟨true, 192 * 2 ^ 24 + 168 * 2 ^ 16, 16⟩,  -- 192.168.0.0/16 private
   ⟨true, 169 * 2 ^ 24 + 254 * 2 ^ 16, 16⟩,  -- 169.254.0.0/16 link-local
   ⟨false, 0xfc00 * 2 ^ 112, 7⟩,             -- fc00::/7 IPv6 unique local
   ⟨false, 0xfe80 * 2 ^ 112, 10⟩]            -- fe80::/10 IPv6 link-local

/-- `watchdog._ip_in_safe_subnets`: empty or `"*"` is safe; strip a zone
(`'%'` suffix) and — when the string has a `':'` but no `']'` — everything
from the first `':'` on (intended as an IPv4 port); then parse and test
membership in `SAFE_SUBNETS`. -/
def _ip_in_safe_subnets (s : String) : Bool :=
  let cs := s.data
  if cs.isEmpty || cs == ['*'] then true
  else
    let cs := if cs.contains '%' then cs.takeWhile (· ≠ '%') else cs
    let cs := if cs.contains ':' && ¬ cs.contains ']' then cs.takeWhile (· ≠ ':') else cs
    match ip_address cs with
    | none => false
    | some ip => SAFE_SUBNETS.any (inNet ip)

/-- One entry of `psutil.Process.connections(kind="inet")` as consumed by
the watchdog: the connection status and the optional remote endpoint. -/
structure Conn where
  status : String
  raddr : Option (String × Nat)
deriving DecidableEq

/-- `watchdog._check_connections`: keep ESTABLISHED / SYN_SENT entries
that have a remote endpoint outside `SAFE_SUBNETS`. -/
def _check_connections (conns : List Conn) : List (String × Nat × String) :=
  conns.foldl
    (fun acc c =>
      if c.status ≠ "ESTABLISHED" && c.status ≠ "SYN_SENT" then acc
      else
        match c.raddr with
        | none => acc
        | some (ip, port) =>
          if ¬ _ip_in_safe_subnets ip then acc ++ [(ip, port, c.status)] else acc)
    []

/-- The observable effect of one iteration of `watchdog._watchdog_loop`. -/
structure WatchdogStepEffect where
  /-- One `logger.critical` EGRESS_VIOLATION line per offending connection. -/
  criticalLogs : List (String × Nat × String)
  /-- `sys.exit(1)` raises `SystemExit 1` inside the watchdog thread. -/
  raisesSystemExit : Option Nat
  /-- The exit status of the whole operating-system process caused by this
  step.  The watchdog runs as a `threading.Thread(daemon=True)` target and
  CPython's `threading.excepthook` silently ignores a `SystemExit` raised in
  a non-main thread, so the `sys.exit(1)` ends only the watchdog thread and
  the process keeps running: this field is `none` on every path. -/
  processExit : Option Nat
deriving DecidableEq

/-- One poll of `watchdog._watchdog_loop`: sleep, enumerate, check; on any
violation log each one critically and call `sys.exit(1)` (which, in the
daemon thread, raises `SystemExit` without terminating the process). -/
def _watchdog_step (conns : List Conn) : WatchdogStepEffect :=
  let v := _check_connections conns
  if v.isEmpty then ⟨[], none, none⟩ else ⟨v, some 1, none⟩

/-! ## `cli.py` — execution boundary -/

/-- A process environment / environment mapping, modelled as an
association list with unique keys (Python `dict`). -/
abbrev Env := List (String × String)

/-- Python `d.get(k)` on the association-list model. -/
def envGet (env : Env) (k : String) : Option String :=
  match (List.find? (fun kv => kv.1 == k) env) with
  | some kv => some kv.2
  | none => none

/-- Whether a key is already present (`k in out`). -/
def envHas (env : Env) (k : String) : Bool :=
  List.any env (fun kv => kv.1 == k)

/-- Python `out[k] = v` on a dict: overwrite in place or append. -/
def envSet (env : Env) (k v : String) : Env :=
  if envHas env k then
    List.map (fun kv => if kv.1 == k then (k, v) else kv) env
  else env ++ [(k, v)]

/-- `cli._STRIPPED_ENV_PREFIXES`. -/
def _STRIPPED_ENV_PREFIXES : List String :=
  ["AWS_", "AZURE_", "GCP_", "GOOGLE_", "OPENAI_", "ANTHROPIC_", "API_KEY",
   "SECRET", "KUBECONFIG", "KUBE_", "VAULT_", "TOKEN", "PASSWORD",
   "CREDENTIAL", "PRIVATE_KEY", "SLACK_", "DISCORD_", "TELEGRAM_", "POSTHOG",
   "SENTRY_", "STRIPE_"]

/-- `cli._SAFE_ENV_KEYS` (a frozenset; modelled as a list — only membership
matters, the set's iteration order is unspecified in Python). -/
def _SAFE_ENV_KEYS : List String :=
  ["PATH", "HOME", "USER", "LANG", "LC_ALL", "TERM", "PHYSICLAW_PERSONA"]

/-- The strip test applied to a scanned key in `ToolExecutor._clean_env`:
`up = k.upper()` starts with one of `_STRIPPED_ENV_PREFIXES`, or contains
one of the generic substrings `"KEY"`, `"SECRET"`, `"TOKEN"`, `"PASSWORD"`.
(Note: `"CREDENTIAL"` appears only in the prefix tuple, not among the
generic substrings.) -/
def isStrippedKey (k : String) : Bool :=
  let up := pyUpperL k.data
  List.any _STRIPPED_ENV_PREFIXES (fun p => leadsWith p.data up) ||
  occursIn "KEY".data up || occursIn "SECRET".data up ||
  occursIn "TOKEN".data up || occursIn "PASSWORD".data up

/-- The first loop of `ToolExecutor._clean_env`: copy one safe key from
the ambient environment when present. -/
def cleanEnvSafeStep (environ : Env) (out : Env) (key : String) : Env :=
  match envGet environ key with
  | some v => out ++ [(key, v)]
  | none => out

/-- The second loop of `ToolExecutor._clean_env`: admit a scanned pair
unless its key is already present or looks like a secret. -/
def cleanEnvScanStep (out : Env) (kv : String × String) : Env :=
  if envHas out kv.1 then out
  else if isStrippedKey kv.1 then out
  else out ++ [kv]

/-- `ToolExecutor._clean_env`: copy the safe keys present in the ambient
environment, admit every other key that does not look like a secret, then
force-set the persona marker.  Pure in `environ`. -/
def _clean_env (p : Persona) (environ : Env) : Env :=
  let out0 : Env := List.foldl (cleanEnvSafeStep environ) [] _SAFE_ENV_KEYS
  let out1 : Env := List.foldl cleanEnvScanStep out0 environ
  envSet out1 "PHYSICLAW_PERSONA" (personaValue p)

/-- Library model of `shlex.split` restricted to inputs without quote,
escape or comment characters, where it coincides with whitespace
splitting.  Every concrete string this development feeds to it is of that
form. -/
def shlexSplitPlain (s : String) : List String :=
  (pyWords s.data).map (fun w => ⟨w⟩)

/-- `ToolExecutor._tool_to_argv`. -/
def _tool_to_argv (tool : String) (args : List String) : List String :=
  let n := (_norm tool).data
  if occursIn "kubectl".data n && occursIn "get".data n then
    ["kubectl", "get"] ++ args
  else if occursIn "terraform".data n && occursIn "plan".data n then
    ["terraform", "plan"] ++ args
  else if occursIn "nmap".data n then
    ["nmap"] ++ args
  else if occursIn "bandit".data n then
    ["bandit"] ++ args
  else shlexSplitPlain tool ++ args

/-- Outcome of one `subprocess.run` call, as seen by the `try`/`except`
arms of `_run_isolated` / `run_in_bwrap` (the external world decides). -/
inductive SpawnResult
  | completed (returncode : Int) (stdout stderr : String)
  | notFound (msg : String)
  | timedOut
  | failed (msg : String)
deriving DecidableEq

/-- The result dict `{"ok": ..., "returncode": ..., "stdout": ...,
"stderr": ..., "error": ...}` returned by the runners. -/
structure ResultDict where
  ok : Bool
  returncode : Option Int := none
  stdout : String := ""
  stderr : String := ""
  error : Option String := none
deriving DecidableEq

/-- Which runner actually spawned the subprocess. -/
inductive SpawnKind
  | direct
  | sandbox
deriving DecidableEq

/-- A record of one OS process creation performed during a call. -/
structure Spawn where
  kind : SpawnKind
  argv : List String
  env : Env
  cwd : String
  timeoutSec : Nat
deriving DecidableEq

/-- An audit-ledger record `(event kind, payload)` as written by
`core.audit.audit_log`. -/
abbrev AuditRecord := String × List (String × String)

/-- `execute` either raises `SecurityViolation(tool, persona)` or returns
a result dict. -/
inductive ExecOutcome
  | securityViolation (tool : String) (persona : String)
  | result (r : ResultDict)
deriving DecidableEq

/-- Everything observable about one `ToolExecutor.execute` call: processes
spawned, audit records written, and the returned value / raised error. -/
structure ExecEffect where
  spawns : List Spawn
  audits : List AuditRecord
  outcome : ExecOutcome
deriving DecidableEq

/-- Classification of a direct `subprocess.run` outcome by the
`try`/`except` arms of `_run_isolated`. -/
def classifyDirect (argv0 : String) : SpawnResult → ResultDict
  | .completed rc out err =>
    { ok := rc == 0, returncode := some rc, stdout := out, stderr := err }
  | .notFound msg =>
    { ok := false, error := some ("binary not found: " ++ argv0), stderr := msg }
  | .timedOut => { ok := false, error := some "command timed out" }
  | .failed msg => { ok := false, error := some msg }

/-- `ToolExecutor._run_isolated`: build argv, bail out on an empty
command, otherwise spawn one direct subprocess with the sanitized
environment, the `PHYSICLAW_CWD`-or-cwd working directory and the timeout
(default 300).  Writes no audit records. -/
def _run_isolated (p : Persona) (environ : Env) (getcwd : String)
    (tool : String) (args : List String) (timeout : Option Nat)
    (world : List String → SpawnResult) : ExecEffect :=
  let argv := _tool_to_argv tool args
  if argv.isEmpty then
    { spawns := [], audits := [],
      outcome := .result { ok := false, error := some "empty command" } }
  else
    let env := _clean_env p environ
    let timeoutSec := timeout.getD 300
    let cwd :=
      match envGet environ "PHYSICLAW_CWD" with
      | some s => if s.isEmpty then getcwd else s
      | none => getcwd
    { spawns := [⟨.direct, argv, env, cwd, timeoutSec⟩],
      audits := [],
      outcome := .result (classifyDirect (argv.headD "") (world argv)) }

/-- `ToolExecutor.execute`: raise `SecurityViolation` when the whitelist
check fails (before any process creation), otherwise run the tool via
`_run_isolated`.  No path writes an audit record. -/
def execute (p : Persona) (environ : Env) (getcwd : String)
    (tool : String) (args : List String) (timeout : Option Nat)
    (world : List String → SpawnResult) : ExecEffect :=
  if ¬ allowed p tool then
    { spawns := [], audits := [],
      outcome := .securityViolation tool (personaValue p) }
  else _run_isolated p environ getcwd tool args timeout world

/-- `cli.get_executor`: lowercase the requested persona (argument, falling
back to `PHYSICLAW_PERSONA`, falling back to `"sre"`) and build an
executor — any string other than `"sre"` selects `Persona.SECOPS`. -/
def get_executor (personaArg : Option String) (envPersona : Option String) : Persona :=
  let base :=
    match personaArg with
    | some s => if s.isEmpty then envPersona.getD "sre" else s
    | none => envPersona.getD "sre"
  if pyLower base == "sre" then .sre else .secops

/-- `ToolExecutor.__init__` called with a string: `Persona(persona.lower())`
raises `ValueError` (modelled as `none`) unless the lowercased string is
exactly an enum value. -/
def toolExecutorOfStr (s : String) : Option Persona :=
  let p := pyLower s
  if p == "sre" then some .sre
  else if p == "secops" then some .secops
  else none

/-! ## `security/sandbox.py` — OS sandbox runner -/

/-- `sandbox.sandbox_enabled`: `PHYSICLAW_SANDBOX` stripped and lowercased
is one of `"1"`, `"true"`, `"yes"`, `"bwrap"`. -/
def sandbox_enabled (environ : Env) : Bool :=
  let v := pyLower (pyStrip ((envGet environ "PHYSICLAW_SANDBOX").getD ""))
  List.contains ["1", "true", "yes", "bwrap"] v

/-- `sandbox.sandbox_allow_network`. -/
def sandbox_allow_network (environ : Env) : Bool :=
  let v := pyLower (pyStrip ((envGet environ "PHYSICLAW_SANDBOX_NET").getD ""))
  List.contains ["1", "true", "yes"] v

/-- External facts `run_in_bwrap` consults: `shutil.which("bwrap")`,
`Path(...).exists()`, `os.getcwd()`, and the behaviour of
`subprocess.run` on the final argv. -/
structure BwrapWorld where
  bwrapPath : Option String
  pathExists : String → Bool
  getcwd : String
  run : List String → SpawnResult

/-- `sandbox._ro_bind_args`: read-only bind each of the standard system
roots that exists; if none does, fall back to `/usr`. -/
def _ro_bind_args (pathExists : String → Bool) : List String :=
  let args :=
    List.foldl (fun (a : List String) m => a ++ ["--ro-bind", m, m]) []
      (List.filter pathExists ["/usr", "/bin", "/lib", "/lib64", "/etc"])
  if args.isEmpty then ["--ro-bind", "/usr", "/usr"] else args

/-- Classification of the sandboxed `subprocess.run` outcome by the
`try`/`except` arms of `run_in_bwrap` (the not-found message differs from
the direct runner's). -/
def classifyBwrap : SpawnResult → ResultDict
  | .completed rc out err =>
    { ok := rc == 0, returncode := some rc, stdout := out, stderr := err }
  | .notFound msg =>
    { ok := false, error := some ("bwrap or command not found: " ++ msg) }
  | .timedOut => { ok := false, error := some "command timed out" }
  | .failed msg => { ok := false, error := some msg }

/-- `sandbox.run_in_bwrap`: fail loud with a structural error result (and
zero spawns) when `bwrap` is missing; otherwise wrap argv in the namespace
sandbox and run it (`env or os.environ` — an empty env dict falls back to
the ambient environment of the world). -/
def run_in_bwrap (w : BwrapWorld) (ambient : Env) (argv : List String)
    (env : Env) (cwd : Option String) (timeoutSec : Nat)
    (allow_network : Bool) : ResultDict × List Spawn :=
  match w.bwrapPath with
  | none =>
    ({ ok := false,
       error := some "bwrap not found; install bubblewrap or set PHYSICLAW_SANDBOX=0" },
     [])
  | some bwrap =>
    let bwrapArgs :=
      [bwrap, "--die-with-parent", "--new-session"] ++
      _ro_bind_args w.pathExists ++
      ["--dev", "/dev", "--proc", "/proc", "--tmpfs", "/tmp", "--dir", "/run"] ++
      (if allow_network then ["--unshare-all", "--share-net"]
       else ["--unshare-net"])
    let envUsed := if env.isEmpty then ambient else env
    let base :=
      match cwd with
      | some s => if s.isEmpty then w.getcwd else s
      | none => w.getcwd
    let work0 := pyStrip base
    let work := if work0.isEmpty then "/tmp" else work0
    let absExists := leadsWith ['/'] work.data && w.pathExists work
    let bwrapArgs :=
      if absExists then bwrapArgs ++ ["--ro-bind", work, work] else bwrapArgs
    let bwrapCwd := if absExists then work else "/tmp"
    let fullArgv := bwrapArgs ++ ["--"] ++ argv
    (classifyBwrap (w.run fullArgv),
     [⟨.sandbox, fullArgv, envUsed, bwrapCwd, timeoutSec⟩])

/-! ## `bridge.py` — authorization gate and persona resolution -/

/-- Modelled from the spec: `_normalize_persona_str` is imported from
`cli` by `bridge.py` but absent from the shipped `cli.py`; per the spec's
normalization rule ("case-insensitive, whitespace-collapsed comparison
against the closed set") it lowercases and collapses internal whitespace,
leaving the recognition decision to its callers. -/
def _normalize_persona_str (s : String) : String := _norm s

/-- `bridge._load_api_key_map` applied to the raw `PHYSICLAW_API_KEYS`
value: a list of (persona-or-wildcard, key) grants.  A part without a
colon is a wildcard grant; empty parts and empty keys are skipped. -/
def _load_api_key_map (raw0 : String) : List (String × String) :=
  let raw := pyStrip raw0
  if raw.isEmpty then []
  else
    List.foldl
      (fun (m : List (String × String)) part0 =>
        let part := pyStripL part0
        if part.isEmpty then m
        else if part.contains ':' then
          let personaRaw : String := ⟨part.takeWhile (· ≠ ':')⟩
          let key : String := ⟨(part.dropWhile (· ≠ ':')).drop 1⟩
          let persona := _normalize_persona_str personaRaw
          if key.isEmpty then m else m ++ [(persona, key)]
        else m ++ [("*", ⟨part⟩)])
      [] (splitOnChar ',' raw.data)

/-- `bridge._auth_required`: `PHYSICLAW_REQUIRE_AUTH` stripped and
lowercased is one of `"1"`, `"true"`, `"yes"`, `"required"`. -/
def _auth_required (rawRequireAuth : String) : Bool :=
  let v := pyLower (pyStrip rawRequireAuth)
  List.contains ["1", "true", "yes", "required"] v

/-- The claims `bridge._validate_jwt` reads from a decoded token:
`persona`, `role` and `scope` (each may be absent; values modelled as the
strings Python's `str(...)` yields for them). -/
structure JwtClaims where
  personaClaim : Option String
  roleClaim : Option String
  scope : Option String
deriving DecidableEq

/-- Library-boundary model of the bearer token on a request, relative to
the configured `PHYSICLAW_JWT_SECRET`: `none` — no syntactically usable
`Authorization: Bearer <tok>` header; `some none` — a bearer token is
present but `jwt.decode` rejects it (bad signature / malformed);
`some (some c)` — `jwt.decode` verifies it and returns claims `c`.  The
HMAC-SHA256 verification itself is external (PyJWT). -/
abbrev BearerOutcome := Option (Option JwtClaims)

/-- A request as seen by `bridge._is_authorized`: the `X-Physiclaw-Key`
header and the decoded bearer token. -/
structure AuthRequest where
  headerKey : Option String
  bearer : BearerOutcome

/-- Process configuration read by the authorization gate (raw environment
values). -/
structure AuthConfig where
  jwtSecretRaw : String
  apiKeysRaw : String
  requireAuthRaw : String

/-- Python `a or b or ""` over optional claim strings (`None` and `""`
are falsy). -/
def firstTruthy (a b : Option String) : String :=
  match a with
  | some s => if s.isEmpty then (match b with | some t => t | none => "") else s
  | none => match b with | some t => t | none => ""

/-- `bridge._validate_jwt`: requires a configured secret and a verifiable
token; an embedded `persona`/`role` claim, when present, must match the
requested persona; a `scope` claim, when present, must include
`physiclaw:goal` or `physiclaw:*`. -/
def _validate_jwt (cfg : AuthConfig) (req : AuthRequest) (persona : String) : Bool :=
  if (pyStrip cfg.jwtSecretRaw).isEmpty then false
  else
    match req.bearer with
    | none => false
    | some none => false
    | some (some c) =>
      let claimPersona := pyLower (pyStrip (firstTruthy c.personaClaim c.roleClaim))
      if (!claimPersona.isEmpty) && claimPersona != persona then false
      else
        match c.scope with
        | none => true
        | some sc =>
          if sc.isEmpty then true
          else
            let scopes := (pyWords sc.data).map (fun w => String.mk w)
            List.contains scopes "physiclaw:goal" || List.contains scopes "physiclaw:*"

/-- `bridge._is_authorized`: JWT first; with no key map configured, admit
iff auth is not required; with a key map, a key valid for this persona or
the wildcard is required when auth is required, and merely must not be
wrong when it is optional. -/
def _is_authorized (cfg : AuthConfig) (req : AuthRequest) (persona : String) : Bool :=
  if _validate_jwt cfg req persona then true
  else
    let m := _load_api_key_map cfg.apiKeysRaw
    if m.isEmpty then !(_auth_required cfg.requireAuthRaw)
    else
      let allowedKeys :=
        (List.filter (fun pk => pk.1 == persona || pk.1 == "*") m).map Prod.snd
      if _auth_required cfg.requireAuthRaw then
        match req.headerKey with
        | none => false
        | some k => if k.isEmpty then false else List.contains allowedKeys k
      else
        match req.headerKey with
        | none => true
        | some k => List.contains allowedKeys k

/-- `bridge.submit_goal` persona resolution: strip+lowercase the requested
persona (or the `PHYSICLAW_PERSONA` environment value, default `"sre"`),
normalize it, and reject anything outside the closed persona set with an
HTTP 400 (`none`). -/
def submitGoalPersona (reqPersona : Option String) (envPersona : Option String) :
    Option String :=
  let base :=
    match reqPersona with
    | some s => if s.isEmpty then envPersona.getD "sre" else s
    | none => envPersona.getD "sre"
  let raw := pyLower (pyStrip base)
  let persona := _normalize_persona_str raw
  if persona == "sre" || persona == "secops" || persona == "data_architect" then
    some persona
  else none

/-! ## Bridging lemmas -/

theorem foldlInvariant {α β : Type} (f : β → α → β) (P : β → Prop) (l : List α)
    (b : β) (hb : P b) (hf : ∀ b a, P b → a ∈ l → P (f b a)) : P (l.foldl f b) := by
  induction l generalizing b with
  | nil => exact hb
  | cons x xs ih =>
    exact ih (f b x) (hf b x hb (by simp))
      (fun b a hb ha => hf b a hb (by simp [ha]))

theorem leadsWith_iff (n h : List Char) : leadsWith n h = true ↔ n <+: h := by
  induction n generalizing h with
  | nil => simp [leadsWith]
  | cons a as ih =>
    cases h with
    | nil => simp [leadsWith]
    | cons b bs => simp [leadsWith, List.cons_prefix_cons, ih]

theorem occursIn_iff (n h : List Char) : occursIn n h = true ↔ n <:+: h := by
  induction h with
  | nil => simp [occursIn, List.isEmpty_iff]
  | cons b bs ih => simp [occursIn, List.infix_cons_iff, leadsWith_iff, ih]

theorem pyIsSpace_toLower {c : Char} (h : pyIsSpace c = true) : c.toLower = c := by
  simp only [pyIsSpace, Bool.or_eq_true, beq_iff_eq] at h
  rcases h with ((((h | h) | h) | h) | h) | h <;> subst h <;> decide

theorem pyWords_eq_nil {l : List Char} (h : ∀ c ∈ l, pyIsSpace c = true) :
    pyWords l = [] := by
  induction l with
  | nil => rfl
  | cons c cs ih =>
    have hc : pyIsSpace c = true := h c (by simp)
    have ih' := ih (fun d hd => h d (by simp [hd]))
    simp [pyWords, hc, ih']

theorem _norm_blank {tool : String} (h : tool.data.all pyIsSpace = true) :
    _norm tool = "" := by
  have hall : ∀ c ∈ tool.data, pyIsSpace c = true := List.all_eq_true.mp h
  have hmap : ∀ c ∈ pyLowerL tool.data, pyIsSpace c = true := by
    intro c hc
    rcases List.mem_map.mp hc with ⟨d, hd, rfl⟩
    rw [pyIsSpace_toLower (hall d hd)]
    exact hall d hd
  unfold _norm
  rw [pyWords_eq_nil hmap]
  rfl

theorem envSet_mem_self (d : Env) (k v : String) : (k, v) ∈ envSet d k v := by
  unfold envSet
  by_cases h : envHas d k = true
  · rw [if_pos h]
    unfold envHas at h
    rcases List.any_eq_true.mp h with ⟨kv, hkv, hk⟩
    exact List.mem_map.mpr ⟨kv, hkv, by simp [hk]⟩
  · rw [if_neg h]
    simp

theorem envSet_mem_elim {d : Env} {k v : String} {kv : String × String}
    (h : kv ∈ envSet d k v) : kv = (k, v) ∨ kv ∈ d := by
  unfold envSet at h
  by_cases hh : envHas d k = true
  · rw [if_pos hh] at h
    rcases List.mem_map.mp h with ⟨kv', hkv', heq⟩
    by_cases hk : (kv'.1 == k) = true
    · left
      rw [← heq]
      simp [hk]
    · right
      rw [← heq]
      simp only [hk]
      simpa using hkv'
  · rw [if_neg hh] at h
    rcases List.mem_append.mp h with h' | h'
    · exact Or.inr h'
    · exact Or.inl (by simpa using h')

/-! ## Claim theorems -/

/-- C1.  The spec claims a detected egress violation terminates the whole
operating-system process with exit status 1 within one polling interval.
The watchdog loop does log one critical line per offending connection and
then calls `sys.exit(1)` — but it runs as a daemon `threading.Thread`
target, where CPython silently discards the raised `SystemExit`, so only
the watchdog thread ends and the process survives (`processExit = none`);
a poll whose connections are all inside `SAFE_SUBNETS` raises nothing. -/
theorem egress_violation_exits_thread_not_process :
    _watchdog_step [⟨"ESTABLISHED", some ("8.8.8.8", 443)⟩] =
      ⟨[("8.8.8.8", 443, "ESTABLISHED")], some 1, none⟩ ∧
    _watchdog_step [⟨"SYN_SENT", some ("8.8.8.8", 443)⟩] =
      ⟨[("8.8.8.8", 443, "SYN_SENT")], some 1, none⟩ ∧
    _watchdog_step [⟨"ESTABLISHED", some ("127.0.0.1", 443)⟩] = ⟨[], none, none⟩ ∧
    _watchdog_step [⟨"ESTABLISHED", some ("10.0.0.7", 443)⟩] = ⟨[], none, none⟩ := by
  refine ⟨by decide, by decide, by decide, by decide⟩

/-- C2.  A tool outside the active persona's whitelist fails closed with
`SecurityViolation(tool, persona)` and zero subprocesses are spawned: the
whitelist check precedes every process creation, for any ambient
environment, arguments, timeout and subprocess behaviour. -/
theorem execute_denied_fails_closed_without_spawn
    (p : Persona) (environ : Env) (getcwd tool : String) (args : List String)
    (timeout : Option Nat) (world : List String → SpawnResult)
    (h : allowed p tool = false) :
    execute p environ getcwd tool args timeout world =
      { spawns := [], audits := [],
        outcome := .securityViolation tool (personaValue p) } := by
  unfold execute
  rw [if_pos (by simp [h])]

theorem execute_denied_fails_closed_without_spawn_witness :
    allowed Persona.sre "rm -rf /" = false ∧
    execute Persona.sre [] "/work" "rm -rf /" [] none (fun _ => .notFound "") =
      { spawns := [], audits := [],
        outcome := .securityViolation "rm -rf /" "sre" } :=
  ⟨by decide,
   execute_denied_fails_closed_without_spawn Persona.sre [] "/work" "rm -rf /"
     [] none (fun _ => .notFound "") (by decide)⟩

/-- C3.  The spec claims hardened mode dispatches every whitelisted
execution to the OS sandbox runner.  In the code, `ToolExecutor.execute`
never consults `sandbox_enabled` and never calls `run_in_bwrap`: with
`PHYSICLAW_SANDBOX=1` in the environment a whitelisted `nmap` call still
spawns exactly one direct subprocess.  (The runner itself does fail loud —
with `bwrap` absent it returns a structural error result and spawns
nothing — but no execution path ever reaches it.) -/
theorem hardened_mode_still_spawns_direct :
    sandbox_enabled [("PHYSICLAW_SANDBOX", "1")] = true ∧
    (execute Persona.secops [("PHYSICLAW_SANDBOX", "1")] "/work" "nmap"
        ["-sV", "127.0.0.1"] none (fun _ => .completed 0 "" "")).spawns.map Spawn.kind =
      [SpawnKind.direct] ∧
    run_in_bwrap ⟨none, fun _ => true, "/work", fun _ => .completed 0 "" ""⟩
        [] ["nmap"] [] none 300 false =
      ({ ok := false,
         error := some "bwrap not found; install bubblewrap or set PHYSICLAW_SANDBOX=0" },
       []) := by
  refine ⟨by decide, by decide, rfl⟩

/-- C4.  The spec claims every `execute` outcome is reported to the audit
ledger (one `security_violation` record per denial, one `tool_call` record
per completion).  The code writes no audit record on any path of
`ToolExecutor.execute`: `audit_log` is called only from the bridge for
`goal` and `auth_denied` events. -/
theorem execute_writes_no_audit_records
    (p : Persona) (environ : Env) (getcwd tool : String) (args : List String)
    (timeout : Option Nat) (world : List String → SpawnResult) :
    (execute p environ getcwd tool args timeout world).audits = [] := by
  unfold execute _run_isolated
  dsimp only
  repeat' split
  all_goals rfl

/-- C6.  The spec claims the SafeAddressSpace test accepts every address
of the eight listed subnets — including the IPv6 loopback, link-local and
unique-local forms — and rejects unparsable non-empty strings.  The
port-stripping heuristic truncates every bare IPv6 address at its first
`':'`, so `"::1"`, `"fe80::1"` and `"fc00::1"` all come back `false`
(outside the perimeter), while the wildcard `"*"` comes back `true`. -/
theorem ip_in_safe_subnets_results :
    _ip_in_safe_subnets "::1" = false ∧
    _ip_in_safe_subnets "fe80::1" = false ∧
    _ip_in_safe_subnets "fc00::1" = false ∧
    _ip_in_safe_subnets "*" = true ∧
    _ip_in_safe_subnets "127.0.0.1" = true ∧
    _ip_in_safe_subnets "10.1.2.3" = true ∧
    _ip_in_safe_subnets "172.16.0.1" = true ∧
    _ip_in_safe_subnets "192.168.5.5" = true ∧
    _ip_in_safe_subnets "169.254.0.9" = true ∧
    _ip_in_safe_subnets "8.8.8.8" = false ∧
    _ip_in_safe_subnets "172.32.0.1" = false ∧
    _ip_in_safe_subnets "not-an-ip" = false := by
  refine ⟨by decide, by decide, by decide, by decide, by decide, by decide,
    by decide, by decide, by decide, by decide, by decide, by decide⟩

/-- C7.  `allowed` under persona `p` holds exactly when the normalized
query equals, contains, or is contained in the normalization of some entry
of `p`'s own whitelist — the right-hand side ranges over `whitelistOf p`
only, so membership is never decided against the other persona's
whitelist. -/
theorem allowed_iff_own_whitelist_match (p : Persona) (tool : String) :
    allowed p tool = true ↔
      ∃ e ∈ whitelistOf p,
        _norm tool = _norm e ∨
        (_norm tool).data <:+: (_norm e).data ∨
        (_norm e).data <:+: (_norm tool).data := by
  unfold allowed matchEntry
  simp [List.any_eq_true, occursIn_iff, or_assoc]

/-- C10.  An empty or all-whitespace tool identifier normalizes to the
empty string, which occurs in every whitelist entry, so `allowed` accepts
it for every persona. -/
theorem allowed_accepts_blank_tool (p : Persona) (tool : String)
    (h : tool.data.all pyIsSpace = true) : allowed p tool = true := by
  unfold allowed
  rw [_norm_blank h]
  cases p <;> decide

theorem allowed_accepts_blank_tool_witness :
    ("".data.all pyIsSpace = true ∧ allowed Persona.sre "" = true) ∧
    (" \t ".data.all pyIsSpace = true ∧ allowed Persona.secops " \t " = true) :=
  ⟨⟨by decide, allowed_accepts_blank_tool Persona.sre "" (by decide)⟩,
   ⟨by decide, allowed_accepts_blank_tool Persona.secops " \t " (by decide)⟩⟩

theorem safeStep_not_stripped {environ out : Env} {key : String}
    (h : ∀ kv ∈ out, isStrippedKey kv.1 = false)
    (hkey : isStrippedKey key = false) :
    ∀ kv ∈ cleanEnvSafeStep environ out key, isStrippedKey kv.1 = false := by
  intro kv hkv
  unfold cleanEnvSafeStep at hkv
  cases he : envGet environ key with
  | none =>
    rw [he] at hkv
    exact h kv hkv
  | some v =>
    rw [he] at hkv
    rcases List.mem_append.mp hkv with h' | h'
    · exact h kv h'
    · rw [List.mem_singleton.mp h']
      exact hkey

theorem scanStep_not_stripped {out : Env} {kv0 : String × String}
    (h : ∀ kv ∈ out, isStrippedKey kv.1 = false) :
    ∀ kv ∈ cleanEnvScanStep out kv0, isStrippedKey kv.1 = false := by
  intro kv hkv
  unfold cleanEnvScanStep at hkv
  by_cases h1 : envHas out kv0.1 = true
  · rw [if_pos h1] at hkv
    exact h kv hkv
  · rw [if_neg h1] at hkv
    by_cases h2 : isStrippedKey kv0.1 = true
    · rw [if_pos h2] at hkv
      exact h kv hkv
    · rw [if_neg h2] at hkv
      rcases List.mem_append.mp hkv with h' | h'
      · exact h kv h'
      · rw [List.mem_singleton.mp h']
        exact Bool.not_eq_true _ ▸ Bool.of_not_eq_true h2

theorem clean_env_mem_not_stripped (p : Persona) (environ : Env) :
    ∀ kv ∈ _clean_env p environ, isStrippedKey kv.1 = false := by
  intro kv hkv
  unfold _clean_env at hkv
  rcases envSet_mem_elim hkv with h | h
  · rw [h]
    exact (by decide : isStrippedKey "PHYSICLAW_PERSONA" = false)
  · refine foldlInvariant cleanEnvScanStep
      (fun out => ∀ kv ∈ out, isStrippedKey kv.1 = false) environ _ ?_ ?_ kv h
    · refine foldlInvariant (cleanEnvSafeStep environ)
        (fun out => ∀ kv ∈ out, isStrippedKey kv.1 = false) _SAFE_ENV_KEYS [] ?_ ?_
      · intro kv hkv
        cases hkv
      · intro out key hout hkey
        exact safeStep_not_stripped hout
          (List.all_eq_true.mp
            (by decide : _SAFE_ENV_KEYS.all (fun s => !isStrippedKey s) = true) key hkey
              |> fun hx => by simpa using hx)
    · intro out kv0 hout _
      exact scanStep_not_stripped hout

/-- C5 (amended).  Any key that starts with one of the stripped prefixes
or whose upper-cased form contains `KEY`, `SECRET`, `TOKEN` or `PASSWORD`
anywhere (`isStrippedKey`) is absent from the sanitized environment, for
every input environment; and the persona marker is always force-set.
("credential" is stripped only as a prefix, not anywhere — see the
counterexample.)  `_clean_env` is a pure function of `environ`: the
ambient environment is only read, never mutated. -/
theorem clean_env_excludes_secret_like_keys (p : Persona) (environ : Env)
    (k : String) (hk : isStrippedKey k = true) :
    ((_clean_env p environ).all fun kv => !(kv.1 == k)) = true ∧
    ((_clean_env p environ).any
        fun kv => kv.1 == "PHYSICLAW_PERSONA" && kv.2 == personaValue p) = true := by
  constructor
  · rw [List.all_eq_true]
    intro kv hkv
    have hns := clean_env_mem_not_stripped p environ kv hkv
    simp only [Bool.not_eq_true', beq_eq_false_iff_ne, ne_eq]
    intro heq
    rw [heq, hk] at hns
    cases hns
  · rw [List.any_eq_true]
    refine ⟨("PHYSICLAW_PERSONA", personaValue p), ?_, by simp⟩
    unfold _clean_env
    exact envSet_mem_self _ _ _

theorem clean_env_excludes_secret_like_keys_witness :
    isStrippedKey "AWS_SECRET_ACCESS_KEY" = true ∧
    ((_clean_env Persona.sre
        [("AWS_SECRET_ACCESS_KEY", "x"), ("PATH", "/bin")]).all
      fun kv => !(kv.1 == "AWS_SECRET_ACCESS_KEY")) = true :=
  ⟨by decide,
   (clean_env_excludes_secret_like_keys Persona.sre
     [("AWS_SECRET_ACCESS_KEY", "x"), ("PATH", "/bin")]
     "AWS_SECRET_ACCESS_KEY" (by decide)).1⟩

/-- C5 (counterexample).  The spec says a key containing "credential"
anywhere (case-insensitive) never survives sanitization; the code checks
`CREDENTIAL` only via `startswith`, so `MY_CREDENTIAL` — whose upper-cased
form contains `CREDENTIAL` but does not start with any stripped prefix and
contains none of `KEY`/`SECRET`/`TOKEN`/`PASSWORD` — is admitted into the
sanitized environment. -/
theorem clean_env_keeps_my_credential :
    occursIn "CREDENTIAL".data (pyUpperL "MY_CREDENTIAL".data) = true ∧
    envHas (_clean_env Persona.sre [("MY_CREDENTIAL", "hunter2")])
      "MY_CREDENTIAL" = true := by
  refine ⟨by decide, by decide⟩

/-- C8 (counterexample).  The spec scenario says strict-auth with no
credential map denies every request regardless of the credentials
presented.  `_is_authorized` consults the JWT validator first: with
`PHYSICLAW_JWT_SECRET` configured, a bearer token that verifies with a
matching role claim and a `physiclaw:goal` scope is admitted even though
strict-auth is on and the credential map is empty. -/
theorem strict_auth_no_keymap_jwt_admits :
    _auth_required "1" = true ∧
    _load_api_key_map "" = [] ∧
    _is_authorized ⟨"topsecret", "", "1"⟩
        ⟨none, some (some ⟨none, some "secops", some "physiclaw:goal"⟩)⟩
        "secops" = true := by
  refine ⟨by decide, by decide, by decide⟩

/-- C8 (amended).  When no valid signed token is in play (the JWT check is
false — in particular when no signing secret is configured), strict-auth
behaves as claimed: with no credential map every request is denied, and
with a credential map a request for persona `P` is admitted exactly when
the presented key is registered for exactly `P` or for the wildcard
persona. -/
theorem strict_auth_admits_iff_registered_key (cfg : AuthConfig)
    (req : AuthRequest) (persona : String)
    (hjwt : _validate_jwt cfg req persona = false)
    (hreq : _auth_required cfg.requireAuthRaw = true) :
    _is_authorized cfg req persona = true ↔
      ∃ k, req.headerKey = some k ∧ k ≠ "" ∧
        ((persona, k) ∈ _load_api_key_map cfg.apiKeysRaw ∨
         ("*", k) ∈ _load_api_key_map cfg.apiKeysRaw) := by
  unfold _is_authorized
  rw [if_neg (by simp [hjwt])]
  dsimp only
  by_cases hm : (_load_api_key_map cfg.apiKeysRaw).isEmpty = true
  · rw [if_pos hm, hreq]
    have hnil : _load_api_key_map cfg.apiKeysRaw = [] := by
      simpa [List.isEmpty_iff] using hm
    simp [hnil]
  · rw [if_neg hm, if_pos hreq]
    cases hk : req.headerKey with
    | none => simp
    | some k =>
      dsimp only
      by_cases hke : k.isEmpty = true
      · have hk0 : k = "" := by simpa [String.isEmpty_iff] using hke
        subst hk0
        simp [hke]
      · rw [if_neg hke]
        constructor
        · intro hc
          have hmem : k ∈ (((_load_api_key_map cfg.apiKeysRaw).filter
              (fun pk => pk.1 == persona || pk.1 == "*")).map Prod.snd) := by
            simpa using hc
          rcases List.mem_map.mp hmem with ⟨pk, hpk, hsnd⟩
          have hpk' := List.mem_filter.mp hpk
          obtain ⟨p1, k1⟩ := pk
          have hk1 : k1 = k := hsnd
          subst hk1
          refine ⟨k1, rfl, by simpa [String.isEmpty_iff] using hke, ?_⟩
          rcases Bool.or_eq_true _ _ |>.mp hpk'.2 with h1 | h1
          · left
            have hp1 : p1 = persona := by simpa using h1
            subst hp1
            exact hpk'.1
          · right
            have hp1 : p1 = "*" := by simpa using h1
            subst hp1
            exact hpk'.1
        · rintro ⟨k', hk', _, hreg⟩
          have hkk : k' = k := (Option.some_inj.mp hk').symm
          subst hkk
          have hmem : k' ∈ (((_load_api_key_map cfg.apiKeysRaw).filter
              (fun pk => pk.1 == persona || pk.1 == "*")).map Prod.snd) := by
            rcases hreg with hr | hr
            · exact List.mem_map.mpr ⟨(persona, k'),
                List.mem_filter.mpr ⟨hr, by simp⟩, rfl⟩
            · exact List.mem_map.mpr ⟨("*", k'),
                List.mem_filter.mpr ⟨hr, by simp⟩, rfl⟩
          simpa using hmem

theorem strict_auth_admits_iff_registered_key_witness :
    _validate_jwt ⟨"", "sre:KEY1,*:KEYALL", "1"⟩ ⟨some "KEYALL", none⟩ "secops" = false ∧
    _auth_required "1" = true ∧
    _is_authorized ⟨"", "sre:KEY1,*:KEYALL", "1"⟩ ⟨some "KEYALL", none⟩ "secops" = true :=
  ⟨by decide, by decide,
   (strict_auth_admits_iff_registered_key ⟨"", "sre:KEY1,*:KEYALL", "1"⟩
       ⟨some "KEYALL", none⟩ "secops" (by decide) (by decide)).mpr
     ⟨"KEYALL", rfl, by decide, Or.inr (by decide)⟩⟩

/-- C9 (counterexample).  The spec says an unrecognized persona string is
never silently defaulted to a known persona.  `cli.get_executor` maps any
argument whose lowercasing is not exactly `"sre"` — including the
unrecognized `"admin"` and the merely unnormalized `" SRE "` — to
`Persona.SECOPS`, thereby granting the SECOPS whitelist. -/
theorem get_executor_silently_defaults_unknown_to_secops :
    get_executor (some "admin") none = Persona.secops ∧
    whitelistOf (get_executor (some "admin") none) = SECOPS_WHITELIST ∧
    get_executor (some " SRE ") none = Persona.secops := by
  refine ⟨by decide, by decide, by decide⟩

/-- C9 (amended).  Persona resolution at the transport boundary
(`bridge.submit_goal`) yields only members of the closed persona set and
rejects everything else with an HTTP 400; `ToolExecutor`'s constructor
raises `ValueError` (here `none`) for any string whose lowercasing is not
an enum value; but `cli.get_executor` silently defaults every other
persona string to SECOPS. -/
theorem persona_resolution_amended :
    (∀ rp ep q, submitGoalPersona rp ep = some q →
        q = "sre" ∨ q = "secops" ∨ q = "data_architect") ∧
    (∀ s, toolExecutorOfStr s = none ↔
        pyLower s ≠ "sre" ∧ pyLower s ≠ "secops") ∧
    (∀ s, ¬ s.isEmpty = true → pyLower s ≠ "sre" →
        get_executor (some s) none = Persona.secops) := by
  refine ⟨?_, ?_, ?_⟩
  · intro rp ep q h
    unfold submitGoalPersona at h
    dsimp only at h
    split at h
    · next hcond =>
      rcases Bool.or_eq_true _ _ |>.mp hcond with h1 | h1
      · rcases Bool.or_eq_true _ _ |>.mp h1 with h2 | h2
        · left
          rw [← Option.some_inj.mp h]
          simpa using h2
        · right; left
          rw [← Option.some_inj.mp h]
          simpa using h2
      · right; right
        rw [← Option.some_inj.mp h]
        simpa using h1
    · cases h
  · intro s
    unfold toolExecutorOfStr
    dsimp only
    by_cases h1 : pyLower s = "sre"
    · simp [h1]
    · by_cases h2 : pyLower s = "secops"
      · simp [h1, h2]
      · simp [h1, h2]
  · intro s hne h
    unfold get_executor
    simp only [hne, if_false, Option.getD]
    simp [hne, h]

theorem persona_resolution_amended_witness :
    (¬ "admin".isEmpty = true) ∧ pyLower "admin" ≠ "sre" ∧
    get_executor (some "admin") none = Persona.secops :=
  ⟨by decide, by decide,
   persona_resolution_amended.2.2 "admin" (by decide) (by decide)⟩

end Physiclaw
